import Mathlib

/-!
# Verification of `biblio_quality.py`

A shallow embedding of the classification engine of `biblio_quality.py`
(bibliographic quality categorisation) together with theorems settling the
specification claims about it.

Modelling conventions:
* A pandas row is modelled as an association list `Row`; a key that is
  absent from the list models a column absent from the frame, a key mapped
  to `none` models a `NaN` cell, and a key mapped to `some v` models a cell
  whose `str()` rendering is `v`.
* Python strings are Lean `String`s; `str.lower` is modelled for the ASCII
  and Cyrillic ranges actually used by the program, `str.strip` for the
  ASCII whitespace characters, and `str.replace` as leftmost, non
  overlapping replacement of every occurrence.
* `urllib.parse.urlparse` is modelled (for the `netloc` component only)
  after the CPython implementation of `urlsplit`: scheme detection, netloc
  between `//` and the next `/`, `?` or `#`, and the unbalanced IPv6
  bracket check, which is the only failure path that can raise.
* Python floats are modelled as exact rationals; `round(x, 2)` is modelled
  as round half to even on rationals.
-/

namespace BiblioQuality

/-- One lower-case step of Python `str.lower`, restricted to the ASCII
letters and the Cyrillic block used by this program. -/
def pyLowerChar (c : Char) : Char :=
  if 'A' ≤ c ∧ c ≤ 'Z' then Char.ofNat (c.toNat + 32)
  else if 0x410 ≤ c.toNat ∧ c.toNat ≤ 0x42F then Char.ofNat (c.toNat + 32)
  else if c.toNat = 0x401 then Char.ofNat 0x451
  else c

/-- Python `str.lower` (ASCII and Cyrillic ranges). -/
def pyLower (s : String) : String :=
  String.mk (s.toList.map pyLowerChar)

/-- The characters treated as whitespace by Python `str.strip()`
(restricted to ASCII). -/
def pyIsSpaceChar (c : Char) : Bool :=
  c = ' ' || c = '\t' || c = '\n' || c = '\r' || c = '\x0b' || c = '\x0c'

/-- Python `str.strip()`: drop leading and trailing whitespace. -/
def pyStrip (s : String) : String :=
  String.mk (((s.toList.dropWhile pyIsSpaceChar).reverse.dropWhile
    pyIsSpaceChar).reverse)

/-- `leadsWith pat l` holds when `pat` is an initial segment of `l`. -/
def leadsWith : List Char → List Char → Bool
  | [], _ => true
  | _ :: _, [] => false
  | a :: as, b :: bs => a = b && leadsWith as bs

/-- `subAux pat l`: does `pat` occur as a contiguous segment of `l`? -/
def subAux (pat : List Char) : List Char → Bool
  | [] => pat.isEmpty
  | c :: rest => leadsWith pat (c :: rest) || subAux pat rest

/-- Python's substring test `needle in hay`. -/
def pyIn (needle hay : String) : Bool :=
  subAux needle.toList hay.toList

/-- Fuelled worker for `pyReplace`; the fuel is the length of the text,
which suffices because every step consumes at least one character. -/
def replFuel (pat rep : List Char) : Nat → List Char → List Char
  | 0, l => l
  | _ + 1, [] => []
  | fuel + 1, c :: rest =>
    if leadsWith pat (c :: rest) then
      rep ++ replFuel pat rep fuel (rest.drop (pat.length - 1))
    else
      c :: replFuel pat rep fuel rest

/-- Python `str.replace(pat, rep)` for a non-empty pattern: leftmost,
non-overlapping replacement of every occurrence. -/
def pyReplace (s pat rep : String) : String :=
  String.mk (replFuel pat.toList rep.toList s.toList.length s.toList)

/-- Python `sep.join(parts)`. -/
def joinSep (sep : String) : List String → String
  | [] => ""
  | [x] => x
  | x :: xs => x ++ sep ++ joinSep sep xs

/-- A pandas row: field name to cell. `none` is a `NaN` cell; a key absent
from the list is a column absent from the frame. -/
def Row : Type := List (String × Option String)

/-- First cell stored under `key`, if the column exists. -/
def rowFind : Row → String → Option (Option String)
  | [], _ => none
  | (k, v) :: rest, key => if k = key then some v else rowFind rest key

/-- `str(row.get(key, dflt))` for a pandas `Series`: the default when the
column is absent, and the rendering `"nan"` of a float `NaN` cell. -/
def pandasGet (row : Row) (key : String) (dflt : String) : String :=
  match rowFind row key with
  | none => dflt
  | some none => "nan"
  | some (some v) => v

/-- Category constant `CATEGORY_ASTAR = "A*"`. -/
def CATEGORY_ASTAR : String := "A*"

/-- Category constant `CATEGORY_RINC = "РИНЦ"`. -/
def CATEGORY_RINC : String := "РИНЦ"

/-- Category constant `CATEGORY_GREY = "Серая зона"`. -/
def CATEGORY_GREY : String := "Серая зона"

/-- Category constant `CATEGORY_PREPRINT = "Preprint"`. -/
def CATEGORY_PREPRINT : String := "Preprint"

/-- Category constant `CATEGORY_CONFERENCE = "Conference"`. -/
def CATEGORY_CONFERENCE : String := "Conference"

/-- Category constant `CATEGORY_STANDARD = "Стандарт/Спецификация"`. -/
def CATEGORY_STANDARD : String := "Стандарт/Спецификация"

/-- Category constant `CATEGORY_UNKNOWN = "Неопределено"`. -/
def CATEGORY_UNKNOWN : String := "Неопределено"

/-- The seven category constants of the program. -/
def allCategories : List String :=
  [CATEGORY_ASTAR, CATEGORY_RINC, CATEGORY_GREY, CATEGORY_PREPRINT,
    CATEGORY_CONFERENCE, CATEGORY_STANDARD, CATEGORY_UNKNOWN]

/-- Translation of `get_first_present`: the first candidate key whose cell
is present, not `NaN`, non-blank after stripping and not `"-"` yields its
stripped value; otherwise the empty string. -/
def get_first_present (row : Row) : List String → String
  | [] => ""
  | key :: rest =>
    match rowFind row key with
    | some (some v) =>
      let value := pyStrip v
      if value ≠ "" ∧ value ≠ "-" then value else get_first_present row rest
    | _ => get_first_present row rest

/-- Characters allowed after the first character of a URL scheme
(`scheme_chars` of `urllib.parse`). -/
def isSchemeChar (c : Char) : Bool :=
  c.isAlphanum || c = '+' || c = '-' || c = '.'

/-- Modelled from the Python standard library: `urllib.parse.urlsplit`,
restricted to producing the `netloc` component, after the CPython
implementation: strip surrounding C0-control/space characters, delete
every tab, CR and LF, split off a valid `scheme:` prefix, then read the
netloc between `//` and the next `/`, `?` or `#`; an unbalanced IPv6
bracket raises `ValueError`, modelled as `Except.error`. -/
def urlsplitNetloc (url : String) : Except Unit String :=
  let cs0 := url.toList.filter fun c => ¬ (c = '\t' ∨ c = '\r' ∨ c = '\n')
  let cs := ((cs0.dropWhile fun c => c.toNat ≤ 0x20).reverse.dropWhile
    fun c => c.toNat ≤ 0x20).reverse
  let rest :=
    match cs.findIdx? (· = ':') with
    | some i =>
      if 0 < i ∧ (cs.headD ' ').isAlpha ∧
          ((cs.take i).drop 1).all isSchemeChar then
        cs.drop (i + 1)
      else cs
    | none => cs
  if leadsWith ['/', '/'] rest then
    let netloc := (rest.drop 2).takeWhile fun c => ¬ (c = '/' ∨ c = '?' ∨ c = '#')
    if (netloc.contains '[' && !(netloc.contains ']')) ||
        (netloc.contains ']' && !(netloc.contains '[')) then
      Except.error ()
    else
      Except.ok (String.mk netloc)
  else
    Except.ok ""

/-- Translation of `extract_domain`: the lower-cased netloc with every
occurrence of `"www."` removed; the empty string when parsing raises. -/
def extract_domain (url : String) : String :=
  match urlsplitNetloc url with
  | Except.error _ => ""
  | Except.ok host => pyReplace (pyLower host) "www." ""

/-- Translation of `normalize_rank`: strip and lower-case, then apply the
replacement table in its insertion order ("а*" is the Cyrillic
letter а followed by an asterisk). -/
def normalize_rank (rank_raw : String) : String :=
  let r0 := pyLower (pyStrip rank_raw)
  let r1 := pyReplace r0 "а*" "a*"
  let r2 := pyReplace (pyReplace (pyReplace (pyReplace r1 "q-1" "q1") "q-2" "q2") "q-3" "q3") "q-4" "q4"
  let r3 := pyReplace (pyReplace (pyReplace (pyReplace r2 "q 1" "q1") "q 2" "q2") "q 3" "q3") "q 4" "q4"
  pyReplace (pyReplace (pyReplace (pyReplace r3 "quartile 1" "q1") "quartile 2" "q2") "quartile 3" "q3") "quartile 4" "q4"

/-- Translation of `get_values`: the stripped values of every listed key
whose cell is present, not `NaN`, non-blank and not `"-"`. -/
def get_values (row : Row) : List String → List String
  | [] => []
  | key :: rest =>
    match rowFind row key with
    | some (some v) =>
      let value := pyStrip v
      if value ≠ "" ∧ value ≠ "-" then value :: get_values row rest
      else get_values row rest
    | _ => get_values row rest

/-- The rank-bearing field list of `collect_rank_text`. -/
def rankFields : List String :=
  ["journal_rank", "rank", "quartile", "scopus_quartile", "wos_quartile",
    "sjr_rank", "snip_rank", "abdc_rank", "abdc", "core_rank", "core",
    "abs_rank", "ajg_rank", "cabs_rank", "ajg", "abs", "cabs"]

/-- Translation of `collect_rank_text`: join the present rank fields with
`" | "` and lower-case the result. -/
def collect_rank_text (row : Row) : String :=
  pyLower (joinSep " | " (get_values row rankFields))

/-- The boolean signal flags produced by `parse_rank_schemes`; a key that
the Python dict never receives is the default `false` ("falsy" via
`flags.get`). `astar` in a field name renders the `*` of the Python key. -/
@[ext]
structure RankFlags where
  q1 : Bool := false
  q2 : Bool := false
  q3 : Bool := false
  q4 : Bool := false
  abdc_astar : Bool := false
  abdc_a : Bool := false
  abdc_b : Bool := false
  abdc_c : Bool := false
  core_astar : Bool := false
  core_a : Bool := false
  core_b : Bool := false
  core_c : Bool := false
  abs_4star : Bool := false
  abs_4 : Bool := false
  abs_3 : Bool := false
  abs_2 : Bool := false
  abs_1 : Bool := false
  deriving Repr, DecidableEq

/-- The normalization step at the head of `parse_rank_schemes`: lower-case,
map the minus sign and the en and em dashes to `"-"`, delete every space
character, and map the Cyrillic digraph `"а*"` to `"a*"`. -/
def rankTextNormalize (rank_text : String) : String :=
  let t0 := pyLower rank_text
  let t1 := pyReplace (pyReplace (pyReplace t0 "−" "-") "–" "-") "—" "-"
  let t2 := pyReplace t1 " " ""
  pyReplace t2 "а*" "a*"

/-- One ABS/AJG/CABS level flag of `parse_rank_schemes`, the loop over the
schemes `abs`, `ajg`, `cabs` unrolled: for each scheme token present in
the text, the level either plain-joined, hyphen-joined or
underscore-joined with the scheme, the plain join repeated with `*`
rewritten to the unicode star `★`. -/
def absLevel (text level lvlNorm : String) : Bool :=
  (pyIn "abs" text &&
    (pyIn ("abs" ++ level) text || pyIn ("abs-" ++ level) text ||
      pyIn ("abs_" ++ level) text || pyIn ("abs" ++ lvlNorm) text)) ||
  (pyIn "ajg" text &&
    (pyIn ("ajg" ++ level) text || pyIn ("ajg-" ++ level) text ||
      pyIn ("ajg_" ++ level) text || pyIn ("ajg" ++ lvlNorm) text)) ||
  (pyIn "cabs" text &&
    (pyIn ("cabs" ++ level) text || pyIn ("cabs-" ++ level) text ||
      pyIn ("cabs_" ++ level) text || pyIn ("cabs" ++ lvlNorm) text))

/-- Translation of `parse_rank_schemes`: after normalization, each flag is
set by substring containment exactly as in the source (the `abdc_a*` flag
also via the reversed adjacency `"a*abdc"`; duplicated source patterns are
kept). -/
def parse_rank_schemes (rank_text : String) : RankFlags :=
  let text := rankTextNormalize rank_text
  let abdcGate := pyIn "abdc" text
  let coreGate := pyIn "core" text
  { q1 := pyIn "q1" text || pyIn "quartile1" text
    q2 := pyIn "q2" text || pyIn "quartile2" text
    q3 := pyIn "q3" text || pyIn "quartile3" text
    q4 := pyIn "q4" text || pyIn "quartile4" text
    abdc_astar := abdcGate &&
      (pyIn "abdca*" text || pyIn "a*abdc" text || pyIn "abdca*" text ||
        pyIn "abdc-a*" text || pyIn "abdc_a*" text)
    abdc_a := abdcGate &&
      (pyIn "abdca" text || pyIn "abdc-a" text || pyIn "abdc_a" text)
    abdc_b := abdcGate &&
      (pyIn "abdcb" text || pyIn "abdc-b" text || pyIn "abdc_b" text)
    abdc_c := abdcGate &&
      (pyIn "abdcc" text || pyIn "abdc-c" text || pyIn "abdc_c" text)
    core_astar := coreGate &&
      (pyIn "corea*" text || pyIn "core-a*" text || pyIn "core_a*" text)
    core_a := coreGate &&
      (pyIn "corea" text || pyIn "core-a" text || pyIn "core_a" text)
    core_b := coreGate &&
      (pyIn "coreb" text || pyIn "core-b" text || pyIn "core_b" text)
    core_c := coreGate &&
      (pyIn "corec" text || pyIn "core-c" text || pyIn "core_c" text)
    abs_4star := absLevel text "4*" "4★"
    abs_4 := absLevel text "4" "4"
    abs_3 := absLevel text "3" "3"
    abs_2 := absLevel text "2" "2"
    abs_1 := absLevel text "1" "1" }

/-- `any(marker in text for marker in markers)`. -/
def anyIn (markers : List String) (text : String) : Bool :=
  markers.any fun m => pyIn m text

/-- `domain in domains` for a set literal of domains. -/
def memDomains (domains : List String) (domain : String) : Bool :=
  domains.any fun d => d = domain

/-- The source-candidate key list of `classify_row`. -/
def sourceKeys : List String :=
  ["Source", "source", "Journal", "journal", "Publisher", "publisher",
    "Venue", "venue"]

/-- The URL-candidate key list of `classify_row`. -/
def urlKeys : List String := ["URL", "url", "Link", "link", "Href", "href"]

/-- The text blob of `classify_row`: lower-cased space-join of the
non-empty entries among source (already lower-cased), domain and raw URL. -/
def classifyRowBlob (row : Row) : String :=
  let source := pyLower (get_first_present row sourceKeys)
  let url := get_first_present row urlKeys
  let domain := extract_domain url
  pyLower (joinSep " " (([source, domain, url]).filter fun s => s ≠ ""))

/-- `rinc_markers` of `classify_row`. -/
def rincMarkersRow : List String :=
  ["rinc", "ринц", "elibrary", "e-library", "elibrary.ru", "e-library.ru",
    "cyberleninka", "cyberleninka.ru"]

/-- `grey_markers` of `classify_row`. -/
def greyMarkersRow : List String :=
  ["habr", "medium", "blog", "vc.ru", "substack", "teletype", "github.io",
    "dev.to", "t.me", "telegram", "researchgate"]

/-- `preprint_markers` of `classify_row`. -/
def preprintMarkersRow : List String :=
  ["arxiv", "biorxiv", "bioarxiv", "medrxiv", "chemrxiv", "preprint"]

/-- `standard_domains` of `classify_row`. -/
def standardDomains : List String :=
  ["w3.org", "rfc-editor.org", "ietf.org", "iso.org",
    "ecma-international.org", "itu.int", "whatwg.org", "oasis-open.org",
    "khronos.org"]

/-- `standard_markers` of `classify_row`. -/
def standardMarkers : List String :=
  ["rfc", "recommendation", "specification", "technicalreport"]

/-- The rank-flag disjunction shared by both classifiers: quartile 1 or 2,
ABDC grade a* or a, CORE grade a* or a, ABS/AJG/CABS level 4* or 4. -/
def qualifyingFlags (f : RankFlags) : Bool :=
  f.q1 || f.q2 || f.abdc_astar || f.abdc_a || f.core_astar || f.core_a ||
    f.abs_4star || f.abs_4

/-- Translation of `classify_row` (the classifier taking the
`treat_preprints_as_grey` flag). -/
def classify_row (row : Row) (treat_preprints_as_grey : Bool := true) :
    String :=
  let domain := extract_domain (get_first_present row urlKeys)
  let rank_flags := parse_rank_schemes (collect_rank_text row)
  let text_blob := classifyRowBlob row
  if anyIn rincMarkersRow text_blob then CATEGORY_RINC
  else if anyIn greyMarkersRow text_blob then CATEGORY_GREY
  else if anyIn preprintMarkersRow text_blob then
    if treat_preprints_as_grey then CATEGORY_GREY else CATEGORY_PREPRINT
  else if memDomains standardDomains domain ||
      anyIn standardMarkers text_blob then CATEGORY_STANDARD
  else if qualifyingFlags rank_flags then CATEGORY_ASTAR
  else CATEGORY_UNKNOWN

/-- `rinc_markers` of `classify_source`. -/
def rincMarkersSource : List String :=
  ["rinc", "ринц", "elibrary", "cyberleninka"]

/-- `preprint_markers` of `classify_source`. -/
def preprintMarkersSource : List String :=
  ["arxiv", "biorxiv", "medrxiv", "chemrxiv", "preprint"]

/-- `conference_markers` of `classify_source`. -/
def conferenceMarkers : List String :=
  ["conference", "conf.", "proceedings", "workshop", "symposium",
    "companion", "neurips", "nips", "icml", "iclr", "kdd", "www ",
    "thewebconf", "sigmod", "vldb", "icse", "fse", "aaai", "ijcai",
    "emnlp", "acl", "naacl", "eccv", "cvpr", "iccv"]

/-- `conf_domains` of `classify_source`. -/
def confDomains : List String :=
  ["dl.acm.org", "ieeexplore.ieee.org", "aaai.org"]

/-- `grey_markers` of `classify_source`. -/
def greyMarkersSource : List String :=
  ["internet source", "habr", "medium", "blog", "vc.ru", "substack",
    "teletype", "github.io", "dev.to", "t.me", "telegram", "researchgate",
    "stackoverflow", "stack overflow", "reddit", "quora", "wikipedia",
    "wiki", "blogspot", "wordpress", "vk.com", "youtube.com"]

/-- `grey_domains` of `classify_source`. -/
def greyDomainsSource : List String :=
  ["habr.com", "medium.com", "vc.ru", "substack.com", "teletype.in",
    "github.io", "dev.to", "t.me", "telegram.me", "researchgate.net",
    "stackoverflow.com", "stackexchange.com", "reddit.com", "quora.com",
    "wikipedia.org", "blogspot.com", "wordpress.com", "vk.com",
    "youtube.com", "github.com"]

/-- Translation of `classify_source` (the classifier used by the
`evaluate_quality` pipeline). -/
def classify_source (row : Row) : String :=
  let source := pyLower (pandasGet row "Source" "")
  let url := pandasGet row "URL" ""
  let domain := extract_domain url
  let rank_flags := parse_rank_schemes (collect_rank_text row)
  let rank_simple := normalize_rank (pandasGet row "journal_rank" "")
  if (["1", "2", "q1", "q2", "a*", "a"].any fun r => r = rank_simple) ||
      qualifyingFlags rank_flags then CATEGORY_ASTAR
  else if anyIn rincMarkersSource source ||
      memDomains ["elibrary.ru", "cyberleninka.ru"] domain then
    CATEGORY_RINC
  else if anyIn preprintMarkersSource source ||
      memDomains ["arxiv.org", "biorxiv.org", "medrxiv.org"] domain then
    CATEGORY_PREPRINT
  else if anyIn conferenceMarkers source || memDomains confDomains domain then
    CATEGORY_CONFERENCE
  else if anyIn greyMarkersSource source ||
      memDomains greyDomainsSource domain then CATEGORY_GREY
  else CATEGORY_UNKNOWN

/-- The category assignment of `evaluate_quality`:
`df.apply(classify_source, axis=1)`. -/
def evaluate_quality_categories (rows : List Row) : List String :=
  rows.map classify_source

/-- Round half to even to an integer, modelling the rounding used by
`pandas.Series.round` (Python floats are modelled as exact rationals). -/
def rhe (q : ℚ) : ℤ :=
  let n := Int.floor q
  let f := q - n
  if f < 1 / 2 then n
  else if 1 / 2 < f then n + 1
  else if n % 2 = 0 then n else n + 1

/-- `round(x, 2)`: round half to even at two decimal places. -/
def round2 (q : ℚ) : ℚ := (rhe (100 * q) : ℚ) / 100

/-- Translation of `compute_stats`: the empty input yields an empty
distribution, otherwise each distinct category is mapped to
`count / total * 100` rounded to two decimals
(`value_counts(normalize=True) * 100` rounded). -/
def compute_stats (categories : List String) : List (String × ℚ) :=
  if categories.isEmpty then []
  else
    categories.dedup.map fun c =>
      (c, round2 ((categories.count c : ℚ) / categories.length * 100))

/-- First value stored under `key` in a distribution. -/
def lookupStats : List (String × ℚ) → String → Option ℚ
  | [], _ => none
  | (k, v) :: rest, key => if k = key then some v else lookupStats rest key

/-- `stats.get(category, 0.0)`. -/
def statsGet (stats : List (String × ℚ)) (key : String) : ℚ :=
  (lookupStats stats key).getD 0

/-- The verdict portion of `print_report`: the three `"OK"`/`"FAIL"`
strings printed for the A*-minimum, RINC-minimum and Grey-maximum
criteria (printing itself is I/O and is modelled as the returned
triple). -/
def print_report_verdicts (stats : List (String × ℚ))
    (a_star_min rinc_min grey_max : ℚ) : String × String × String :=
  let a_star_pct := statsGet stats CATEGORY_ASTAR
  let rinc_pct := statsGet stats CATEGORY_RINC
  let grey_pct := statsGet stats CATEGORY_GREY
  (if a_star_pct ≥ a_star_min then "OK" else "FAIL",
    if rinc_pct ≥ rinc_min then "OK" else "FAIL",
    if grey_pct ≤ grey_max then "OK" else "FAIL")

/-! ## Definitions written from the claims, for comparison with the code -/

/-- The rank-based A* rule of `classify_source`, written as claim C4
states it: a qualifying parser signal, or the simplified `journal_rank`
field normalizing into the qualifying set. -/
def ruleAstar (row : Row) : Bool :=
  (["1", "2", "q1", "q2", "a*", "a"].any fun r =>
      r = normalize_rank (pandasGet row "journal_rank" "")) ||
    qualifyingFlags (parse_rank_schemes (collect_rank_text row))

/-- The lower-cased `Source` cell read by `classify_source`. -/
def sourceLower (row : Row) : String := pyLower (pandasGet row "Source" "")

/-- The canonical domain of the `URL` cell read by `classify_source`. -/
def rowDomain (row : Row) : String :=
  extract_domain (pandasGet row "URL" "")

/-- The RINC rule of `classify_source`. -/
def ruleRinc (row : Row) : Bool :=
  anyIn rincMarkersSource (sourceLower row) ||
    memDomains ["elibrary.ru", "cyberleninka.ru"] (rowDomain row)

/-- The preprint rule of `classify_source`. -/
def rulePreprint (row : Row) : Bool :=
  anyIn preprintMarkersSource (sourceLower row) ||
    memDomains ["arxiv.org", "biorxiv.org", "medrxiv.org"] (rowDomain row)

/-- The conference rule of `classify_source`. -/
def ruleConference (row : Row) : Bool :=
  anyIn conferenceMarkers (sourceLower row) ||
    memDomains confDomains (rowDomain row)

/-- The grey-zone rule of `classify_source`. -/
def ruleGrey (row : Row) : Bool :=
  anyIn greyMarkersSource (sourceLower row) ||
    memDomains greyDomainsSource (rowDomain row)

/-- The RINC rule of `classify_row`, over its text blob. -/
def rowRincMatch (row : Row) : Bool :=
  anyIn rincMarkersRow (classifyRowBlob row)

/-- The grey-zone rule of `classify_row`, over its text blob. -/
def rowGreyMatch (row : Row) : Bool :=
  anyIn greyMarkersRow (classifyRowBlob row)

/-- The preprint rule of `classify_row`, over its text blob. -/
def rowPreprintMatch (row : Row) : Bool :=
  anyIn preprintMarkersRow (classifyRowBlob row)

/-- `extract_domain` as claim C6 states it: only a LEADING `"www."`
prefix of the lower-cased netloc is stripped. -/
def stripLeadingOnce (s pre : String) : String :=
  if leadsWith pre.toList s.toList then String.mk (s.toList.drop pre.toList.length)
  else s

/-- The domain extractor written from the words of claim C6. -/
def extractDomainClaimed (url : String) : String :=
  match urlsplitNetloc url with
  | Except.error _ => ""
  | Except.ok host => stripLeadingOnce (pyLower host) "www."

/-- The accessor acceptance test of claim C9: present, not missing,
non-blank after trimming and not the placeholder `"-"`. -/
def fieldAccept (row : Row) (key : String) : Bool :=
  match rowFind row key with
  | some (some v) =>
    if pyStrip v ≠ "" ∧ pyStrip v ≠ "-" then true else false
  | _ => false

/-- The raw cell value used by the claim-C9 characterisation. -/
def rawValue (row : Row) (key : String) : String :=
  match rowFind row key with
  | some (some v) => v
  | _ => ""

/-- The normalization exactly as claim C5 states it: dash variants to a
hyphen, ALL whitespace stripped, Cyrillic `"а*"` to `"a*"` (lower-casing
as for the collected blob). -/
def claimNormalizeWS (t : String) : String :=
  let t0 := pyLower t
  let t1 := pyReplace (pyReplace (pyReplace t0 "−" "-") "–" "-") "—" "-"
  let t2 := String.mk (t1.toList.filter fun c => ¬ pyIsSpaceChar c = true)
  pyReplace t2 "а*" "a*"

/-- The rank-scheme parser exactly as claim C5 states it: after
`claimNormalizeWS`, a quartile flag when `qN` or `quartileN` occurs, and a
scheme-grade flag only when the scheme token occurs and the grade token is
plain-joined, hyphen-joined or underscore-joined after it. -/
def parseRankSchemesClaimed (rank_text : String) : RankFlags :=
  let text := claimNormalizeWS rank_text
  { q1 := pyIn "q1" text || pyIn "quartile1" text
    q2 := pyIn "q2" text || pyIn "quartile2" text
    q3 := pyIn "q3" text || pyIn "quartile3" text
    q4 := pyIn "q4" text || pyIn "quartile4" text
    abdc_astar := pyIn "abdc" text &&
      (pyIn "abdca*" text || pyIn "abdc-a*" text || pyIn "abdc_a*" text)
    abdc_a := pyIn "abdc" text &&
      (pyIn "abdca" text || pyIn "abdc-a" text || pyIn "abdc_a" text)
    abdc_b := pyIn "abdc" text &&
      (pyIn "abdcb" text || pyIn "abdc-b" text || pyIn "abdc_b" text)
    abdc_c := pyIn "abdc" text &&
      (pyIn "abdcc" text || pyIn "abdc-c" text || pyIn "abdc_c" text)
    core_astar := pyIn "core" text &&
      (pyIn "corea*" text || pyIn "core-a*" text || pyIn "core_a*" text)
    core_a := pyIn "core" text &&
      (pyIn "corea" text || pyIn "core-a" text || pyIn "core_a" text)
    core_b := pyIn "core" text &&
      (pyIn "coreb" text || pyIn "core-b" text || pyIn "core_b" text)
    core_c := pyIn "core" text &&
      (pyIn "corec" text || pyIn "core-c" text || pyIn "core_c" text)
    abs_4star :=
      (pyIn "abs" text &&
        (pyIn "abs4*" text || pyIn "abs-4*" text || pyIn "abs_4*" text)) ||
      (pyIn "ajg" text &&
        (pyIn "ajg4*" text || pyIn "ajg-4*" text || pyIn "ajg_4*" text)) ||
      (pyIn "cabs" text &&
        (pyIn "cabs4*" text || pyIn "cabs-4*" text || pyIn "cabs_4*" text))
    abs_4 :=
      (pyIn "abs" text &&
        (pyIn "abs4" text || pyIn "abs-4" text || pyIn "abs_4" text)) ||
      (pyIn "ajg" text &&
        (pyIn "ajg4" text || pyIn "ajg-4" text || pyIn "ajg_4" text)) ||
      (pyIn "cabs" text &&
        (pyIn "cabs4" text || pyIn "cabs-4" text || pyIn "cabs_4" text))
    abs_3 :=
      (pyIn "abs" text &&
        (pyIn "abs3" text || pyIn "abs-3" text || pyIn "abs_3" text)) ||
      (pyIn "ajg" text &&
        (pyIn "ajg3" text || pyIn "ajg-3" text || pyIn "ajg_3" text)) ||
      (pyIn "cabs" text &&
        (pyIn "cabs3" text || pyIn "cabs-3" text || pyIn "cabs_3" text))
    abs_2 :=
      (pyIn "abs" text &&
        (pyIn "abs2" text || pyIn "abs-2" text || pyIn "abs_2" text)) ||
      (pyIn "ajg" text &&
        (pyIn "ajg2" text || pyIn "ajg-2" text || pyIn "ajg_2" text)) ||
      (pyIn "cabs" text &&
        (pyIn "cabs2" text || pyIn "cabs-2" text || pyIn "cabs_2" text))
    abs_1 :=
      (pyIn "abs" text &&
        (pyIn "abs1" text || pyIn "abs-1" text || pyIn "abs_1" text)) ||
      (pyIn "ajg" text &&
        (pyIn "ajg1" text || pyIn "ajg-1" text || pyIn "ajg_1" text)) ||
      (pyIn "cabs" text &&
        (pyIn "cabs1" text || pyIn "cabs-1" text || pyIn "cabs_1" text)) }

/-- The normalization of the amended claim C5: dash variants to a hyphen,
every SPACE character (only) deleted, Cyrillic `"а*"` to `"a*"`. -/
def claimNormalizeSpace (t : String) : String :=
  let t0 := pyLower t
  let t1 := pyReplace (pyReplace (pyReplace t0 "−" "-") "–" "-") "—" "-"
  let t2 := pyReplace t1 " " ""
  pyReplace t2 "а*" "a*"

/-- The rank-scheme parser of the amended claim C5: as
`parseRankSchemesClaimed` but with space-only stripping, with the grade
`a*` also accepted immediately BEFORE the `abdc` token, and with an
ABS/AJG/CABS level `4*` also accepted with the unicode star `★` in place
of `*`. -/
def parseRankSchemesAmended (rank_text : String) : RankFlags :=
  let text := claimNormalizeSpace rank_text
  { q1 := pyIn "q1" text || pyIn "quartile1" text
    q2 := pyIn "q2" text || pyIn "quartile2" text
    q3 := pyIn "q3" text || pyIn "quartile3" text
    q4 := pyIn "q4" text || pyIn "quartile4" text
    abdc_astar := pyIn "abdc" text &&
      (pyIn "abdca*" text || pyIn "abdc-a*" text || pyIn "abdc_a*" text ||
        pyIn "a*abdc" text)
    abdc_a := pyIn "abdc" text &&
      (pyIn "abdca" text || pyIn "abdc-a" text || pyIn "abdc_a" text)
    abdc_b := pyIn "abdc" text &&
      (pyIn "abdcb" text || pyIn "abdc-b" text || pyIn "abdc_b" text)
    abdc_c := pyIn "abdc" text &&
      (pyIn "abdcc" text || pyIn "abdc-c" text || pyIn "abdc_c" text)
    core_astar := pyIn "core" text &&
      (pyIn "corea*" text || pyIn "core-a*" text || pyIn "core_a*" text)
    core_a := pyIn "core" text &&
      (pyIn "corea" text || pyIn "core-a" text || pyIn "core_a" text)
    core_b := pyIn "core" text &&
      (pyIn "coreb" text || pyIn "core-b" text || pyIn "core_b" text)
    core_c := pyIn "core" text &&
      (pyIn "corec" text || pyIn "core-c" text || pyIn "core_c" text)
    abs_4star :=
      (pyIn "abs" text &&
        (pyIn "abs4*" text || pyIn "abs-4*" text || pyIn "abs_4*" text ||
          pyIn "abs4★" text)) ||
      (pyIn "ajg" text &&
        (pyIn "ajg4*" text || pyIn "ajg-4*" text || pyIn "ajg_4*" text ||
          pyIn "ajg4★" text)) ||
      (pyIn "cabs" text &&
        (pyIn "cabs4*" text || pyIn "cabs-4*" text || pyIn "cabs_4*" text ||
          pyIn "cabs4★" text))
    abs_4 :=
      (pyIn "abs" text &&
        (pyIn "abs4" text || pyIn "abs-4" text || pyIn "abs_4" text)) ||
      (pyIn "ajg" text &&
        (pyIn "ajg4" text || pyIn "ajg-4" text || pyIn "ajg_4" text)) ||
      (pyIn "cabs" text &&
        (pyIn "cabs4" text || pyIn "cabs-4" text || pyIn "cabs_4" text))
    abs_3 :=
      (pyIn "abs" text &&
        (pyIn "abs3" text || pyIn "abs-3" text || pyIn "abs_3" text)) ||
      (pyIn "ajg" text &&
        (pyIn "ajg3" text || pyIn "ajg-3" text || pyIn "ajg_3" text)) ||
      (pyIn "cabs" text &&
        (pyIn "cabs3" text || pyIn "cabs-3" text || pyIn "cabs_3" text))
    abs_2 :=
      (pyIn "abs" text &&
        (pyIn "abs2" text || pyIn "abs-2" text || pyIn "abs_2" text)) ||
      (pyIn "ajg" text &&
        (pyIn "ajg2" text || pyIn "ajg-2" text || pyIn "ajg_2" text)) ||
      (pyIn "cabs" text &&
        (pyIn "cabs2" text || pyIn "cabs-2" text || pyIn "cabs_2" text))
    abs_1 :=
      (pyIn "abs" text &&
        (pyIn "abs1" text || pyIn "abs-1" text || pyIn "abs_1" text)) ||
      (pyIn "ajg" text &&
        (pyIn "ajg1" text || pyIn "ajg-1" text || pyIn "ajg_1" text)) ||
      (pyIn "cabs" text &&
        (pyIn "cabs1" text || pyIn "cabs-1" text || pyIn "cabs_1" text)) }

/-! ## Shared helper lemmas -/

/-- `classify_source` decomposed into its rule chain: rank-based A*
first, then RINC, Preprint, Conference, Grey, and Unknown as default. -/
lemma classify_source_rule_chain (row : Row) :
    classify_source row =
      if ruleAstar row then CATEGORY_ASTAR
      else if ruleRinc row then CATEGORY_RINC
      else if rulePreprint row then CATEGORY_PREPRINT
      else if ruleConference row then CATEGORY_CONFERENCE
      else if ruleGrey row then CATEGORY_GREY
      else CATEGORY_UNKNOWN := rfl

/-- `classify_source` only ever returns one of the category constants. -/
lemma classify_source_mem (row : Row) :
    classify_source row ∈ allCategories := by
  rw [classify_source_rule_chain]
  split_ifs <;> simp [allCategories]

/-- `classify_source` never returns the Standard category. -/
lemma classify_source_ne_standard (row : Row) :
    classify_source row ≠ CATEGORY_STANDARD := by
  rw [classify_source_rule_chain]
  split_ifs <;> simp [CATEGORY_ASTAR, CATEGORY_RINC, CATEGORY_PREPRINT,
    CATEGORY_CONFERENCE, CATEGORY_GREY, CATEGORY_UNKNOWN, CATEGORY_STANDARD]

/-- The standards rule of `classify_row`: domain membership or a marker
in the text blob. -/
def rowStandardMatch (row : Row) : Bool :=
  memDomains standardDomains (extract_domain (get_first_present row urlKeys)) ||
    anyIn standardMarkers (classifyRowBlob row)

/-- The rank-based A* rule of `classify_row`. -/
def rowAstarMatch (row : Row) : Bool :=
  qualifyingFlags (parse_rank_schemes (collect_rank_text row))

/-- `classify_row` decomposed into its rule chain: RINC, Grey, Preprint
(folded into Grey when the flag is set), Standard, rank-based A*, and
Unknown as default. -/
lemma classify_row_rule_chain (row : Row) (flag : Bool) :
    classify_row row flag =
      if rowRincMatch row then CATEGORY_RINC
      else if rowGreyMatch row then CATEGORY_GREY
      else if rowPreprintMatch row then
        if flag then CATEGORY_GREY else CATEGORY_PREPRINT
      else if rowStandardMatch row then CATEGORY_STANDARD
      else if rowAstarMatch row then CATEGORY_ASTAR
      else CATEGORY_UNKNOWN := rfl

/-! ## Concrete records used by the claim theorems -/

/-- A record with a Grey source marker and a qualifying rank. -/
def habrQ1Row : Row :=
  [("Source", some "Habr blog"), ("journal_rank", some "Q1")]

/-- A record with an RINC URL domain and a qualifying rank. -/
def elibQ1Row : Row :=
  [("URL", some "https://elibrary.ru/item.asp?id=1"),
    ("journal_rank", some "Q1")]

/-- A record with a Grey source marker and no rank fields. -/
def habrRow : Row := [("Source", some "Habr blog")]

/-- A record with an RINC URL domain and no rank fields. -/
def elibRow : Row := [("URL", some "https://elibrary.ru/item.asp?id=1")]

/-- A record whose URL is a preprint-server link. -/
def arxivRow : Row := [("URL", some "https://arxiv.org/abs/1234")]

/-- A record whose source carries a standards marker. -/
def rfcRow : Row := [("Source", some "RFC 9110")]

/-- A record carrying only a simplified rank field. -/
def q1Row : Row := [("journal_rank", some "Q1")]

/-! ## Claim theorems -/

/-- C1, counterexample: contrary to the claimed priority order, a record
whose source holds the Grey marker `habr` but whose `journal_rank` is `Q1`
is classified `A*` (not Grey) by `classify_source`, and likewise a record
with the RINC domain `elibrary.ru` and rank `Q1` is classified `A*` (not
RINC): the rank-based rule fires first. -/
theorem claim_C1_counterexample :
    classify_source habrQ1Row = CATEGORY_ASTAR ∧
      (CATEGORY_ASTAR == CATEGORY_GREY) = false ∧
      classify_source elibQ1Row = CATEGORY_ASTAR ∧
      (CATEGORY_ASTAR == CATEGORY_RINC) = false := by
  decide

/-- C1, amended: `classify_source` evaluates its rules in the strict
priority order rank-based A*, RINC, Preprint, Conference, Grey, Unknown,
returning at the first match with no lower rule evaluated (it has no
Standard rule); a Grey-marker or RINC-domain record is classified Grey or
RINC respectively only when no qualifying rank signal is present. -/
theorem claim_C1_rule_order :
    (∀ row : Row,
        classify_source row =
          if ruleAstar row then CATEGORY_ASTAR
          else if ruleRinc row then CATEGORY_RINC
          else if rulePreprint row then CATEGORY_PREPRINT
          else if ruleConference row then CATEGORY_CONFERENCE
          else if ruleGrey row then CATEGORY_GREY
          else CATEGORY_UNKNOWN) ∧
      classify_source habrRow = CATEGORY_GREY ∧
      classify_source elibRow = CATEGORY_RINC :=
  ⟨classify_source_rule_chain, by decide, by decide⟩

/-- C3: the classifier invoked by the `evaluate_quality` pipeline,
`classify_source`, never returns the Standard category (its count among
the assigned categories is always zero), while the Standard rule does
exist in `classify_row`, which the pipeline does not call. -/
theorem claim_C3_pipeline_no_standard :
    (∀ row : Row, (classify_source row == CATEGORY_STANDARD) = false) ∧
      (∀ rows : List Row,
        (evaluate_quality_categories rows).count CATEGORY_STANDARD = 0) ∧
      classify_row rfcRow true = CATEGORY_STANDARD := by
  refine ⟨fun row => ?_, fun rows => ?_, by decide⟩
  · exact beq_eq_false_iff_ne.mpr (classify_source_ne_standard row)
  · rw [List.count_eq_zero]
    simp only [evaluate_quality_categories, List.mem_map, not_exists]
    exact fun row h => (classify_source_ne_standard row) h.2

/-- C4: `classify_source` returns `A*` exactly when some qualifying rank
signal is true or the simplified `journal_rank` field normalizes into the
qualifying set; the code checks this rule first, so the equivalence holds
for every record, in particular for every record matching no other rule.
A record with `journal_rank` `"Q1"` and no other markers is `A*`. -/
theorem claim_C4_astar_iff :
    (∀ row : Row,
        classify_source row = CATEGORY_ASTAR ↔ ruleAstar row = true) ∧
      classify_source q1Row = CATEGORY_ASTAR := by
  refine ⟨fun row => ?_, by decide⟩
  rw [classify_source_rule_chain]
  cases h : ruleAstar row <;>
    split_ifs <;>
    simp_all [CATEGORY_ASTAR, CATEGORY_RINC, CATEGORY_PREPRINT,
      CATEGORY_CONFERENCE, CATEGORY_GREY, CATEGORY_UNKNOWN]

/-- C2: for a record whose `classify_row` text blob matches a preprint
marker and no higher-priority (RINC or Grey) rule, the classifier returns
`Preprint` when `treat_preprints_as_grey` is `false` and `Grey` when it is
`true`. -/
theorem claim_C2_preprint_flag (row : Row)
    (hp : rowPreprintMatch row = true) (hr : rowRincMatch row = false)
    (hg : rowGreyMatch row = false) :
    classify_row row false = CATEGORY_PREPRINT ∧
      classify_row row true = CATEGORY_GREY := by
  constructor <;> · rw [classify_row_rule_chain]; simp [hp, hr, hg]

/-- C2, witness: the record with URL `https://arxiv.org/abs/1234`. -/
theorem claim_C2_witness :
    classify_row arxivRow false = CATEGORY_PREPRINT ∧
      classify_row arxivRow true = CATEGORY_GREY :=
  claim_C2_preprint_flag arxivRow (by decide) (by decide) (by decide)

/-- Boolean shuffle: a duplicated first disjunct is absorbed. -/
lemma bor_dup (a b c : Bool) : (a || b || c || a) = (a || b || c) := by
  cases a <;> cases b <;> cases c <;> rfl

/-- Boolean shuffle used for the `abdc_a*` flag. -/
lemma bor_rot (a b c d : Bool) :
    (a || b || a || c || d) = (a || c || d || b) := by
  cases a <;> cases b <;> cases c <;> cases d <;> rfl

/-- C5, counterexample: the claim as stated fails on the code in three
places. A tab is whitespace but is not stripped (only spaces are), so
`"q\t1"` sets no quartile flag although the claimed normalization would;
the level token `4★` (unicode star) sets the `abs_4*` flag although it is
not one of the claimed join patterns; and `a*` immediately BEFORE the
`abdc` token sets `abdc_a*` although the claimed patterns only place the
grade after the scheme. -/
theorem claim_C5_counterexample :
    (parseRankSchemesClaimed "q\t1").q1 = true ∧
      (parse_rank_schemes "q\t1").q1 = false ∧
      (parse_rank_schemes "abs4★").abs_4star = true ∧
      (parseRankSchemesClaimed "abs4★").abs_4star = false ∧
      (parse_rank_schemes "a*abdc").abdc_astar = true ∧
      (parseRankSchemesClaimed "a*abdc").abdc_astar = false := by
  decide

/-- C5, amended: `parse_rank_schemes` equals the parser described by the
amended claim — normalize dash variants to a hyphen, delete every space
character (other whitespace is kept), map Cyrillic `а*` to `a*`, then set
each flag independently by substring containment of the scheme-grade join
patterns (with `a*abdc` also accepted for `abdc_a*` and the unicode-star
spelling `4★` also accepted for the `4*` level); an absent token leaves
the flag unset, and the empty blob yields all-false flags. -/
theorem claim_C5_scheme_flags :
    (∀ t : String, parse_rank_schemes t = parseRankSchemesAmended t) ∧
      parse_rank_schemes "" = {} := by
  refine ⟨fun t => ?_, by decide⟩
  apply RankFlags.ext <;>
    simp only [parse_rank_schemes, parseRankSchemesAmended, absLevel]
  all_goals try rw [bor_rot]
  all_goals try simp only [bor_dup]
  all_goals rfl

/-- C6, counterexample: `extract_domain` removes EVERY occurrence of
`"www."` from the host, not only a leading prefix, so it differs from the
claimed extractor on `https://www.www.example.com/page`. -/
theorem claim_C6_counterexample :
    extract_domain "https://www.www.example.com/page" = "example.com" ∧
      extractDomainClaimed "https://www.www.example.com/page" =
        "www.example.com" ∧
      (extract_domain "https://www.www.example.com/page" ==
        extractDomainClaimed "https://www.www.example.com/page") = false := by
  decide

/-- C6, amended: `extract_domain` returns the lower-cased netloc with
every occurrence of `"www."` removed (no port stripping, no trailing-dot
removal, as witnessed on concrete URLs), and returns the empty string for
the empty string and for a URL whose parse raises. -/
theorem claim_C6_domain_extraction :
    (∀ url host, urlsplitNetloc url = Except.ok host →
        extract_domain url = pyReplace (pyLower host) "www." "") ∧
      (∀ url, urlsplitNetloc url = Except.error () →
        extract_domain url = "") ∧
      extract_domain "" = "" ∧
      extract_domain "http://[::1" = "" ∧
      extract_domain "http://example.com:8080/x" = "example.com:8080" ∧
      extract_domain "http://example.com./x" = "example.com." ∧
      extract_domain "HTTP://WWW.Example.COM/x" = "example.com" := by
  refine ⟨fun url host h => ?_, fun url h => ?_, by decide, by decide,
    by decide, by decide, by decide⟩
  · unfold extract_domain; rw [h]
  · unfold extract_domain; rw [h]

/-- C6, witness for the amended theorem. -/
theorem claim_C6_witness :
    extract_domain "https://www.example.org/p" =
      pyReplace (pyLower "www.example.org") "www." "" :=
  claim_C6_domain_extraction.1 "https://www.example.org/p" "www.example.org"
    rfl

/-- C9: `get_first_present` returns the trimmed value of the first
candidate whose cell is present, not missing, non-blank after trimming and
not the placeholder `"-"`, and the empty string when no candidate
qualifies; it is total, so absent fields never raise. -/
theorem claim_C9_accessor :
    ∀ (row : Row) (candidates : List String),
      get_first_present row candidates =
        ((candidates.find? (fieldAccept row)).map fun k =>
            pyStrip (rawValue row k)).getD "" := by
  intro row candidates
  induction candidates with
  | nil => rfl
  | cons key rest ih =>
    cases h : rowFind row key with
    | none =>
      have ha : fieldAccept row key = false := by simp [fieldAccept, h]
      simp only [get_first_present, h, List.find?_cons, ha, ih]
    | some v =>
      cases v with
      | none =>
        have ha : fieldAccept row key = false := by simp [fieldAccept, h]
        simp only [get_first_present, h, List.find?_cons, ha, ih]
      | some s =>
        by_cases hc : pyStrip s ≠ "" ∧ pyStrip s ≠ "-"
        · have ha : fieldAccept row key = true := by simp [fieldAccept, h, hc]
          have hv : rawValue row key = s := by simp [rawValue, h]
          simp only [get_first_present, h, List.find?_cons, ha, hv]
          simp [hc, hv]
        · have ha : fieldAccept row key = false := by
            simp only [fieldAccept, h]
            simp [hc]
          simp only [get_first_present, h, List.find?_cons, ha, ih]
          simp [hc]

/-- C10: classification is a pure function of the one record (and, for
`classify_row`, the flag): both classifiers always return one of the seven
category constants, re-classifying an unchanged record yields the same
category, and the category assigned inside a collection equals the
category assigned to the record alone, independent of the surrounding
records. -/
theorem claim_C10_pure_deterministic :
    (∀ row : Row, classify_source row ∈ allCategories) ∧
      (∀ (row : Row) (flag : Bool), classify_row row flag ∈ allCategories) ∧
      (∀ row : Row, classify_source row = classify_source row) ∧
      (∀ (pre post : List Row) (row : Row),
        evaluate_quality_categories (pre ++ row :: post) =
          evaluate_quality_categories pre ++
            classify_source row :: evaluate_quality_categories post) := by
  refine ⟨classify_source_mem, fun row flag => ?_, fun _ => rfl,
    fun pre post row => ?_⟩
  · rw [classify_row_rule_chain]
    split_ifs <;> simp [allCategories]
  · simp [evaluate_quality_categories]

/-- Rounding half to even moves a rational by at most one half. -/
lemma rhe_abs_le (q : ℚ) : |(rhe q : ℚ) - q| ≤ 1 / 2 := by
  have h1 : (Int.floor q : ℚ) ≤ q := Int.floor_le q
  have h2 : q < Int.floor q + 1 := Int.lt_floor_add_one q
  simp only [rhe]
  split_ifs with hf hf2 hpar <;>
    · rw [abs_le]
      constructor <;> · push_cast; linarith

/-- Rounding to two decimal places moves a rational by at most `1/200`. -/
lemma round2_err (q : ℚ) : |round2 q - q| ≤ 1 / 200 := by
  have h := rhe_abs_le (100 * q)
  unfold round2
  have hq : (rhe (100 * q) : ℚ) / 100 - q = ((rhe (100 * q) : ℚ) - 100 * q) / 100 := by
    ring
  rw [hq, abs_div, abs_of_pos (by norm_num : (0 : ℚ) < 100)]
  linarith

/-- The absolute value of a rational list sum is at most the sum of the
absolute values. -/
lemma list_abs_sum_le (l : List ℚ) : |l.sum| ≤ (l.map fun x => |x|).sum := by
  induction l with
  | nil => simp
  | cons a l ih =>
    simp only [List.sum_cons, List.map_cons]
    calc |a + l.sum| ≤ |a| + |l.sum| := abs_add _ _
      _ ≤ |a| + (l.map fun x => |x|).sum := by linarith

/-- Summing a pointwise difference over a list. -/
lemma list_sum_map_sub (d : List String) (f g : String → ℚ) :
    (d.map fun x => f x - g x).sum = (d.map f).sum - (d.map g).sum := by
  induction d with
  | nil => simp
  | cons a d ih => simp [ih]; ring

/-- Looking a key up in a tabulated association list. -/
lemma lookupStats_map (f : String → ℚ) (d : List String) (c : String)
    (hc : c ∈ d) :
    lookupStats (d.map fun x => (x, f x)) c = some (f c) := by
  induction d with
  | nil => cases hc
  | cons a d ih =>
    simp only [List.map_cons, lookupStats]
    by_cases h : a = c
    · subst h; simp
    · rw [if_neg h]
      refine ih ?_
      rcases List.mem_cons.mp hc with h1 | h1
      · exact absurd h1.symm h
      · exact h1

/-- C7: `compute_stats` maps the empty input to the empty distribution,
maps each represented category to `count / total * 100` rounded to two
decimal places, and for every non-empty category-valued input the
reported percentages sum to `100` within the two-decimal rounding
tolerance (`1/200` per category over at most seven categories). -/
theorem claim_C7_stats :
    compute_stats [] = [] ∧
      (∀ (l : List String) (c : String), c ∈ l →
        lookupStats (compute_stats l) c =
          some (round2 ((l.count c : ℚ) / l.length * 100))) ∧
      (∀ l : List String, l ≠ [] → (∀ s ∈ l, s ∈ allCategories) →
        |((compute_stats l).map fun p => p.2).sum - 100| ≤ 7 / 200) := by
  refine ⟨rfl, fun l c hc => ?_, fun l hne hall => ?_⟩
  · have hne : l.isEmpty = false := by
      cases l
      · cases hc
      · rfl
    unfold compute_stats
    rw [hne]
    simp only [Bool.false_eq_true, if_false]
    exact lookupStats_map _ _ _ (List.mem_dedup.mpr hc)
  · have hne' : l.isEmpty = false := by
      cases l
      · exact absurd rfl hne
      · rfl
    have hlen : (0 : ℚ) < l.length := by
      cases l
      · exact absurd rfl hne
      · exact_mod_cast Nat.succ_pos _
    have hlen0 : (l.length : ℚ) ≠ 0 := ne_of_gt hlen
    unfold compute_stats
    rw [hne']
    simp only [Bool.false_eq_true, if_false, List.map_map]
    have hmap :
        ((fun p => p.2) ∘ fun c => (c, round2 ((l.count c : ℚ) / l.length * 100))) =
          fun c => round2 ((l.count c : ℚ) / l.length * 100) := rfl
    rw [hmap]
    set d := l.dedup with hd
    set pct : String → ℚ := fun c => (l.count c : ℚ) / l.length * 100 with hpct
    have hsum_pct : (d.map pct).sum = 100 := by
      have h1 : d.map pct =
          d.map fun c => (l.count c : ℚ) * (100 / (l.length : ℚ)) := by
        refine List.map_congr_left fun c _ => ?_
        rw [hpct]
        ring
      have h2 : (d.map fun c => (l.count c : ℚ)).sum =
          (((d.map fun c => l.count c).sum : ℕ) : ℚ) := by
        rw [Nat.cast_list_sum, List.map_map]
        rfl
      rw [h1, List.sum_map_mul_right, h2, hd,
        List.sum_map_count_dedup_eq_length]
      field_simp
    have hdiff : (d.map fun c => round2 (pct c)).sum - 100 =
        (d.map fun c => round2 (pct c) - pct c).sum := by
      rw [list_sum_map_sub, hsum_pct]
    have habs : |(d.map fun c => round2 (pct c) - pct c).sum| ≤
        (d.length : ℚ) * (1 / 200) := by
      calc |(d.map fun c => round2 (pct c) - pct c).sum|
          ≤ ((d.map fun c => round2 (pct c) - pct c).map fun x => |x|).sum :=
            list_abs_sum_le _
        _ = (d.map fun c => |round2 (pct c) - pct c|).sum := by
            rw [List.map_map]; rfl
        _ ≤ (d.map fun c => |round2 (pct c) - pct c|).length • (1 / 200 : ℚ) :=
            List.sum_le_card_nsmul _ _ (by
              intro x hx
              obtain ⟨c, _, rfl⟩ := List.mem_map.mp hx
              exact round2_err _)
        _ = (d.length : ℚ) * (1 / 200) := by
            rw [List.length_map, nsmul_eq_mul]
    have hcard : d.length ≤ 7 := by
      have hnd : d.Nodup := l.nodup_dedup
      have hsub : d ⊆ allCategories := fun x hx =>
        hall x (List.mem_dedup.mp hx)
      have hle := (hnd.subperm hsub).length_le
      simpa [allCategories] using hle
    have hcard' : (d.length : ℚ) ≤ 7 := by exact_mod_cast hcard
    rw [hdiff]
    calc |(d.map fun c => round2 (pct c) - pct c).sum|
        ≤ (d.length : ℚ) * (1 / 200) := habs
      _ ≤ 7 * (1 / 200) := by nlinarith
      _ = 7 / 200 := by norm_num

/-- A distribution used by the C7 and C8 witnesses. -/
def demoStats : List (String × ℚ) :=
  [(CATEGORY_ASTAR, 60), (CATEGORY_RINC, 25), (CATEGORY_GREY, 15)]

/-- A category sequence used by the C7 witness. -/
def demoCats : List String :=
  [CATEGORY_ASTAR, CATEGORY_ASTAR, CATEGORY_RINC, CATEGORY_GREY]

/-- C7, witness: the lookup equation and the sum bound at a concrete
four-record category sequence. -/
theorem claim_C7_witness :
    lookupStats (compute_stats demoCats) CATEGORY_ASTAR =
        some (round2 ((demoCats.count CATEGORY_ASTAR : ℚ) /
          demoCats.length * 100)) ∧
      |((compute_stats demoCats).map fun p => p.2).sum - 100| ≤ 7 / 200 :=
  ⟨claim_C7_stats.2.1 demoCats CATEGORY_ASTAR (by decide),
    claim_C7_stats.2.2 demoCats (by decide) (by decide)⟩

/-- C8: each verdict printed by the report is `"OK"` exactly when the
corresponding percentage satisfies its caller-supplied threshold — A* at
least the A* minimum, RINC at least the RINC minimum, Grey at most the
Grey maximum — and a category absent from the distribution contributes
`0`. -/
theorem claim_C8_verdicts :
    (∀ (stats : List (String × ℚ)) (a_star_min rinc_min grey_max : ℚ),
        ((print_report_verdicts stats a_star_min rinc_min grey_max).1 = "OK" ↔
          statsGet stats CATEGORY_ASTAR ≥ a_star_min) ∧
        ((print_report_verdicts stats a_star_min rinc_min grey_max).2.1 = "OK" ↔
          statsGet stats CATEGORY_RINC ≥ rinc_min) ∧
        ((print_report_verdicts stats a_star_min rinc_min grey_max).2.2 = "OK" ↔
          statsGet stats CATEGORY_GREY ≤ grey_max)) ∧
      (∀ (stats : List (String × ℚ)) (key : String),
        lookupStats stats key = none → statsGet stats key = 0) := by
  constructor
  · intro stats a_star_min rinc_min grey_max
    refine ⟨?_, ?_, ?_⟩ <;>
      · simp only [print_report_verdicts]
        split_ifs with h <;> simp [h]
  · intro stats key h
    simp [statsGet, h]

/-- C8, witness: the verdict equivalence at a concrete distribution and
thresholds, and the absent-category default at the empty distribution. -/
theorem claim_C8_witness :
    ((print_report_verdicts demoStats 50 15 10).1 = "OK" ↔
        statsGet demoStats CATEGORY_ASTAR ≥ 50) ∧
      statsGet [] CATEGORY_ASTAR = 0 :=
  ⟨(claim_C8_verdicts.1 demoStats 50 15 10).1,
    claim_C8_verdicts.2 [] CATEGORY_ASTAR rfl⟩

end BiblioQuality
